import Mathlib

/-!
Verification of the blockchain-transaction indexing service core.

This file gives a shallow embedding of the core functions of the service
(signature canonicalization, WebSocket filter matching, ingestion
normalization and batching, the list endpoint with its query validator,
the wallet-auth gate, and the fixed-window rate limiter) and proves
properties of the embedding.  Machine integers (i64, u32, usize) are
modelled as Int/Nat: none of the embedded code paths can overflow
64-bit arithmetic for the inputs the service accepts, so wrap-around
is not modelled.  External effects (Redis, Postgres, Kafka, Ed25519)
appear as explicit state values or oracle parameters.
-/

/-! ## A minimal JSON value model (for serde_json::Value) -/

/-- JSON values as used by the service: numbers that occur in the core are
64-bit integers (slot, lamports, block_time), so the numeric case is Int. -/
inductive Json where
  | null
  | bool (b : Bool)
  | num (n : Int)
  | str (s : String)
  | arr (xs : List Json)
  | obj (fields : List (String × Json))

/-- Field lookup on an object, as serde_json Value::get. -/
def Json.get? : Json → String → Option Json
  | .obj fields, key => (fields.find? (fun p => p.1 == key)).map (fun p => p.2)
  | _, _ => none

/-- Value::as_str. -/
def Json.asStr? : Json → Option String
  | .str s => some s
  | _ => none

/-- Value::as_i64. -/
def Json.asI64? : Json → Option Int
  | .num n => some n
  | _ => none

/-- Value::as_array. -/
def Json.asArr? : Json → Option (List Json)
  | .arr xs => some xs
  | _ => none

/-! ## Signature verifier crate: build_signing_string (crates/auth/src/lib.rs) -/

/-- Embedding of crates/auth build_signing_string.  The Rust code matches on
the canonicalization option strings and joins the three parts with newlines.
Case mapping is modelled with the ASCII toUpper/toLower of Lean; the service only
canonicalizes HTTP methods and URL paths, which are ASCII. -/
def build_signing_string (method path_qs nonce canon_method canon_path : String) : String :=
  let canonical_method :=
    if canon_method = "upper" then method.toUpper
    else if canon_method = "lower" then method.toLower
    else method
  let canonical_path :=
    if canon_path = "lower" then path_qs.toLower
    else path_qs
  canonical_method ++ "\n" ++ canonical_path ++ "\n" ++ nonce

/-- Spec-side method canonicalization: upper uppercases, lower lowercases,
anything else leaves the method as-is. -/
def canon_method_spec (canon_method method : String) : String :=
  if canon_method = "upper" then method.toUpper
  else if canon_method = "lower" then method.toLower
  else method

/-- Spec-side path canonicalization: lower lowercases, anything else as-is. -/
def canon_path_spec (canon_path path_qs : String) : String :=
  if canon_path = "lower" then path_qs.toLower
  else path_qs

/-! ## Live-channel filters and matcher (api/src/ws/mod.rs) -/

/-- Subscription filters.  The Rust struct fields `from` and `to` are named
`from_f`/`to_f` here because `from` is a Lean keyword. -/
structure TransactionFilters where
  signature : Option String
  from_f : Option String
  to_f : Option String
  program_id : Option String
  slot_from : Option Int
  slot_to : Option Int

/-- get_str helper of matches_filters: tx.get(field).and_then(as_str). -/
def ws_get_str (tx : Json) (field : String) : Option String :=
  (tx.get? field).bind Json.asStr?

/-- get_i64 helper of matches_filters: tx.get(field).and_then(as_i64). -/
def ws_get_i64 (tx : Json) (field : String) : Option Int :=
  (tx.get? field).bind Json.asI64?

/-- Embedding of matches_filters (api/src/ws/mod.rs).  The Rust early
returns become a conjunction of the per-field checks in source order. -/
def matches_filters (tx : Json) (filters : TransactionFilters) : Bool :=
  (match filters.signature with
   | some sig => ws_get_str tx "signature" == some sig
   | none => true) &&
  (match filters.from_f with
   | some f => ws_get_str tx "from_pubkey" == some f
   | none => true) &&
  (match filters.to_f with
   | some t => ws_get_str tx "to_pubkey" == some t
   | none => true) &&
  (match filters.program_id with
   | some program_id =>
     match (tx.get? "program_ids").bind Json.asArr? with
     | some program_ids => program_ids.any (fun v => v.asStr? == some program_id)
     | none => false
   | none => true) &&
  (match filters.slot_from with
   | some slot_from =>
     match ws_get_i64 tx "slot" with
     | some slot => !(slot < slot_from)
     | none => true
   | none => true) &&
  (match filters.slot_to with
   | some slot_to =>
     match ws_get_i64 tx "slot" with
     | some slot => !(slot > slot_to)
     | none => true
   | none => true)

/-- The program ids of a transaction value, as the strings appearing in its
program_ids array (non-string entries and a missing array contribute none). -/
def tx_program_ids (tx : Json) : List String :=
  (((tx.get? "program_ids").bind Json.asArr?).getD []).filterMap Json.asStr?

/-! ## Ingestion: raw message parsing and normalization (api/src/ingest/normalize.rs) -/

/-- Processing errors of the ingestion pipeline (api/src/ingest/mod.rs). -/
inductive ProcessingError where
  | parseError (message : String) (error : String)
  | validationError (field : String) (reason : String)
  | databaseError (signature : String) (error : String)
  | kafkaError (operation : String) (error : String)
deriving DecidableEq, Repr

/-- Raw transaction message decoded from a Kafka payload (api/src/ingest/mod.rs).
The Rust fields `from`/`to` are named `from_pubkey`/`to_pubkey` here because
`from` is a Lean keyword. -/
structure RawTransaction where
  signature : String
  slot : Int
  from_pubkey : Option String
  to_pubkey : Option String
  lamports : Option Int
  program_ids : Option (List String)
  instructions : Option (List Json)
  block_time : Option String

/-- Normalized transaction ready for database insertion (api/src/ingest/mod.rs). -/
structure NormalizedTransaction where
  signature : String
  slot : Int
  from_pubkey : Option String
  to_pubkey : Option String
  lamports : Option Int
  program_ids : Option (List String)
  instructions : Json
  block_time : Option Int

/-- A Kafka payload, abstracted: its byte size, and the result of
serde_json::from_slice on it (none when the bytes are not a structurally
valid document of the expected shape). -/
structure Payload where
  size : Nat
  parsed : Option RawTransaction

/-- Embedding of parse_raw_message: reject payloads over 1 MiB, then parse.
The parse_error message content is abstracted (the code copies the raw bytes
and the serde error string into it). -/
def parse_raw_message (p : Payload) : Except ProcessingError RawTransaction :=
  if p.size > 1048576 then
    .error (.validationError "message_size" "Message too large (max 1MB)")
  else
    match p.parsed with
    | some raw => .ok raw
    | none => .error (.parseError "unparsed payload" "json parse failure")

/-- Embedding of normalize_transaction.  `parse_rfc3339` is the oracle for
chrono::DateTime::parse_from_rfc3339 composed with .timestamp(): it returns
the epoch seconds, or none when the string does not parse (in which case the
code drops the field with a warning and does not fail the record). -/
def normalize_transaction (parse_rfc3339 : String → Option Int) (raw : RawTransaction) :
    Except ProcessingError NormalizedTransaction :=
  if raw.signature.isEmpty then
    .error (.validationError "signature" "Signature cannot be empty")
  else if raw.slot < 0 then
    .error (.validationError "slot" "Slot must be non-negative")
  else if raw.program_ids.any (fun program_ids => decide (program_ids.length > 50)) then
    .error (.validationError "program_ids" "Too many program IDs (max 50)")
  else if raw.instructions.any (fun inst => decide (inst.length > 100)) then
    .error (.validationError "instructions" "Too many instructions (max 100)")
  else
    let block_time := match raw.block_time with
      | some time_str => parse_rfc3339 time_str
      | none => none
    let instructions := match raw.instructions with
      | some inst => Json.arr inst
      | none => Json.arr []
    .ok { signature := raw.signature, slot := raw.slot,
          from_pubkey := raw.from_pubkey, to_pubkey := raw.to_pubkey,
          lamports := raw.lamports, program_ids := raw.program_ids,
          instructions := instructions, block_time := block_time }

/-- Embedding of validate_normalized: signature length in 80..=100, pubkey
fields of length 44 when present, non-negative lamports when present. -/
def validate_normalized (tx : NormalizedTransaction) : Except ProcessingError Unit :=
  if tx.signature.length < 80 || tx.signature.length > 100 then
    .error (.validationError "signature" "Invalid signature length")
  else if tx.from_pubkey.any (fun f => f.length != 44) then
    .error (.validationError "from_pubkey" "Invalid pubkey length")
  else if tx.to_pubkey.any (fun t => t.length != 44) then
    .error (.validationError "to_pubkey" "Invalid pubkey length")
  else if tx.lamports.any (fun lamports => decide (lamports < 0)) then
    .error (.validationError "lamports" "Lamports must be non-negative")
  else
    .ok ()

/-- Embedding of KafkaIngestion::process_message (api/src/ingest/kafka.rs):
parse, normalize, validate. -/
def process_message (parse_rfc3339 : String → Option Int) (p : Payload) :
    Except ProcessingError NormalizedTransaction := do
  let raw ← parse_raw_message p
  let normalized ← normalize_transaction parse_rfc3339 raw
  validate_normalized normalized
  pure normalized

/-- Whether an Except result is a success. -/
def except_is_ok : Except ε α → Bool
  | .ok _ => true
  | .error _ => false

/-- Rejection predicate exactly as claim C5 words it: oversize payload,
structural parse failure, empty signature, negative slot, more than 50
program ids, more than 100 instructions, or a present from/to field of the
wrong length. -/
def c5_claim_rejects (p : Payload) : Bool :=
  decide (p.size > 1048576) ||
  (match p.parsed with
   | none => true
   | some raw =>
     raw.signature.isEmpty ||
     decide (raw.slot < 0) ||
     raw.program_ids.any (fun program_ids => decide (program_ids.length > 50)) ||
     raw.instructions.any (fun inst => decide (inst.length > 100)) ||
     raw.from_pubkey.any (fun f => f.length != 44) ||
     raw.to_pubkey.any (fun t => t.length != 44))

/-- The rejection conditions enforced by normalize_transaction. -/
def c5_norm_rejects (raw : RawTransaction) : Bool :=
  raw.signature.isEmpty ||
  decide (raw.slot < 0) ||
  raw.program_ids.any (fun program_ids => decide (program_ids.length > 50)) ||
  raw.instructions.any (fun inst => decide (inst.length > 100))

/-- The rejection conditions enforced by validate_normalized, as a function
of the fields it inspects (which normalization copies from the raw record). -/
def c5_len_rejects (signature : String) (from_pubkey to_pubkey : Option String)
    (lamports : Option Int) : Bool :=
  (decide (signature.length < 80) || decide (signature.length > 100)) ||
  from_pubkey.any (fun f => f.length != 44) ||
  to_pubkey.any (fun t => t.length != 44) ||
  lamports.any (fun l => decide (l < 0))

/-- Rejection predicate amended to what the code enforces: additionally the
signature length must lie in 80..=100 and a present lamports value must be
non-negative. -/
def c5_amended_rejects (p : Payload) : Bool :=
  decide (p.size > 1048576) ||
  (match p.parsed with
   | none => true
   | some raw =>
     c5_norm_rejects raw ||
     c5_len_rejects raw.signature raw.from_pubkey raw.to_pubkey raw.lamports)

/-- A payload whose record has a short non-empty signature: the conditions
listed by claim C5 all pass, yet the code rejects it for signature length. -/
def c5_payload : Payload :=
  { size := 20,
    parsed := some { signature := "abc", slot := 0, from_pubkey := none,
                     to_pubkey := none, lamports := none, program_ids := none,
                     instructions := none, block_time := none } }

/-! ## Repository: bulk insert-or-ignore (api/src/repository/transactions.rs) -/

/-- Batch processing result (api/src/ingest/mod.rs). -/
structure BatchResult where
  processed : Nat
  inserted : Nat
  skipped : Nat
  errors : List ProcessingError

/-- Whether the transactions table already holds a row with this signature
(the table has a unique key on signature). -/
def db_contains (db : List NormalizedTransaction) (sig : String) : Bool :=
  db.any (fun tx => tx.signature == sig)

/-- One VALUES row of the bulk statement under ON CONFLICT (signature)
DO NOTHING: a conflicting signature leaves the table unchanged and affects
zero rows, otherwise the row is appended and affects one row. -/
def insert_row (db : List NormalizedTransaction) (tx : NormalizedTransaction) :
    List NormalizedTransaction × Nat :=
  if db_contains db tx.signature then (db, 0) else (db ++ [tx], 1)

/-- Sequential insertion of the rows of one statement (Postgres processes the
VALUES rows in order; with DO NOTHING a duplicate inside the same statement is
also skipped).  Returns the new table and the rows_affected count. -/
def insert_rows (db : List NormalizedTransaction) :
    List NormalizedTransaction → List NormalizedTransaction × Nat
  | [] => (db, 0)
  | tx :: rest =>
    let step := insert_row db tx
    let next := insert_rows step.1 rest
    (next.1, step.2 + next.2)

/-- Splitting a list into chunks of at most n elements (slice::chunks). -/
def chunks_of (n : Nat) (l : List α) : List (List α) :=
  if l.isEmpty || n == 0 then []
  else l.take n :: chunks_of n (l.drop n)
termination_by l.length
decreasing_by
  rename_i h
  simp only [Bool.or_eq_true, List.isEmpty_iff, beq_iff_eq, not_or] at h
  cases l with
  | nil => exact absurd rfl h.1
  | cons x xs => simp only [List.length_drop, List.length_cons]; omega

/-- Folding the per-chunk statements of bulk_insert_or_ignore: each chunk
contributes rows_affected to inserted and chunk.len − rows_affected to
skipped, threading the table state. -/
def bulk_chunks (db : List NormalizedTransaction) :
    List (List NormalizedTransaction) → Nat × Nat × List NormalizedTransaction
  | [] => (0, 0, db)
  | chunk :: rest =>
    let step := insert_rows db chunk
    let next := bulk_chunks step.1 rest
    (step.2 + next.1, (chunk.length - step.2) + next.2.1, next.2.2)

/-- Embedding of TransactionRepository::bulk_insert_or_ignore: empty input
short-circuits with zero counts; otherwise the batch is processed in chunks
of 50 and the per-chunk rows_affected are accumulated.  The per-chunk
database-error branch is not taken in this pure model of the store. -/
def bulk_insert_or_ignore (db : List NormalizedTransaction)
    (transactions : List NormalizedTransaction) :
    BatchResult × List NormalizedTransaction :=
  if transactions.isEmpty then
    ({ processed := 0, inserted := 0, skipped := 0, errors := [] }, db)
  else
    let acc := bulk_chunks db (chunks_of 50 transactions)
    ({ processed := transactions.length, inserted := acc.1,
       skipped := acc.2.1, errors := [] }, acc.2.2)

/-! ## Ingestion batch commit loop and DLQ routing (api/src/ingest/kafka.rs) -/

/-- DLQ payload (api/src/ingest/mod.rs): the original message, the error
string, the production timestamp and a retry counter. -/
structure DlqMessage where
  original_message : Json
  error : String
  timestamp : Int
  retry_count : Nat

/-- serde_json::to_value of a NormalizedTransaction (serde serializes a None
option as null). -/
def normalized_tx_json (tx : NormalizedTransaction) : Json :=
  .obj [("signature", .str tx.signature),
        ("slot", .num tx.slot),
        ("from_pubkey", match tx.from_pubkey with | some s => .str s | none => .null),
        ("to_pubkey", match tx.to_pubkey with | some s => .str s | none => .null),
        ("lamports", match tx.lamports with | some l => .num l | none => .null),
        ("program_ids", match tx.program_ids with
                        | some ps => .arr (ps.map Json.str)
                        | none => .null),
        ("instructions", tx.instructions),
        ("block_time", match tx.block_time with | some b => .num b | none => .null)]

/-- Observable outcome of KafkaIngestion::process_batch: the fan-out events
emitted to the bridge, the DLQ records produced (keyed by signature), the
sleep delays taken between attempts, the number of commit attempts, and the
commit result when one attempt succeeded. -/
structure ProcessBatchOut where
  events : List Json
  dlq : List (String × DlqMessage)
  delays : List Nat
  attempts : Nat
  commit_result : Option BatchResult

/-- The retry loop of process_batch.  `commit k` is the outcome of the k-th
bulk-store attempt (1-based).  Mirrors the Rust while loop: on success emit a
fan-out event for each of the first `inserted` batch entries (when
emit_ws_events) and stop; on failure increment retry_count, and either route
every record of the batch to the DLQ (retry exhaustion) or sleep
retry_backoff_ms × retry_count and try again. -/
def process_attempts (commit : Nat → Except String BatchResult)
    (max_retries retry_backoff_ms : Nat) (emit_ws_events : Bool)
    (processed_batch : List NormalizedTransaction) (now : Int)
    (retry_count : Nat) (delays : List Nat) : ProcessBatchOut :=
  if retry_count < max_retries then
    match commit (retry_count + 1) with
    | .ok result =>
      { events := if emit_ws_events then
                    (processed_batch.take result.inserted).map normalized_tx_json
                  else [],
        dlq := [], delays := delays, attempts := retry_count + 1,
        commit_result := some result }
    | .error e =>
      if max_retries ≤ retry_count + 1 then
        { events := [],
          dlq := processed_batch.map (fun tx =>
            (tx.signature,
             { original_message := normalized_tx_json tx, error := e,
               timestamp := now, retry_count := 0 })),
          delays := delays, attempts := retry_count + 1, commit_result := none }
      else
        process_attempts commit max_retries retry_backoff_ms emit_ws_events
          processed_batch now (retry_count + 1)
          (delays ++ [retry_backoff_ms * (retry_count + 1)])
  else
    { events := [], dlq := [], delays := delays, attempts := retry_count,
      commit_result := none }
termination_by max_retries - retry_count
decreasing_by omega

/-- Embedding of KafkaIngestion::process_batch: an empty batch returns
immediately; otherwise the retry loop runs and the batch is cleared
afterwards (the consumer loop then continues with the next messages).
Returns the observable outcome and the batch contents after the call. -/
def process_batch (commit : Nat → Except String BatchResult)
    (max_retries retry_backoff_ms : Nat) (emit_ws_events : Bool)
    (batch : List NormalizedTransaction) (now : Int) :
    ProcessBatchOut × List NormalizedTransaction :=
  if batch.isEmpty then
    ({ events := [], dlq := [], delays := [], attempts := 0,
       commit_result := none }, batch)
  else
    (process_attempts commit max_retries retry_backoff_ms emit_ws_events
       batch now 0 [], [])

/-! ## Cached query endpoint (api/src/http/routes/transactions.rs and
api/src/repository/transactions.rs) -/

/-- Stored transaction row (api/src/repository/transactions.rs). -/
structure SolanaTransaction where
  signature : String
  slot : Int
  from_pubkey : Option String
  to_pubkey : Option String
  lamports : Option Int
  program_ids : Option (List String)
  instructions : Json
  block_time : Option Int
  created_at : Int

/-- Repository filter (api/src/repository/transactions.rs). -/
structure TransactionFilter where
  signature : Option String
  from_pubkey : Option String
  to_pubkey : Option String
  program_id : Option String
  slot_from : Option Int
  slot_to : Option Int

/-- Pagination (limit/offset come from validated u32 query fields). -/
structure Pagination where
  limit : Nat
  offset : Nat

/-- API error taxonomy (api/src/errors/mod.rs). -/
inductive ApiError where
  | internal (reason : String)
  | badRequest (missing : List String) (reason : Option String)
  | notFound (resource : String)
  | serviceUnavailable (details : String)
deriving DecidableEq, Repr

/-- HTTP status of an ApiError (ResponseError::status_code). -/
def ApiError.status : ApiError → Nat
  | .internal _ => 500
  | .badRequest _ _ => 400
  | .notFound _ => 404
  | .serviceUnavailable _ => 503

/-- List query parameters after deserialization, defaults applied
(api/src/http/routes/transactions.rs ListQuery). -/
structure ListQuery where
  signature : Option String
  from_pubkey : Option String
  to_pubkey : Option String
  program_id : Option String
  slot_from : Option Int
  slot_to : Option Int
  sort_by : String
  order : String
  limit : Nat
  offset : Nat

/-- Embedding of validate_query: limit in 1..=200, sort_by and order from
their enumerations, and slot_from ≤ slot_to when both are set. -/
def validate_query (query : ListQuery) : Except ApiError Unit :=
  if query.limit < 1 || query.limit > 200 then
    .error (.badRequest [] (some "limit must be between 1 and 200"))
  else if !(["slot", "signature", "block_time"].contains query.sort_by) then
    .error (.badRequest [] (some "sort_by must be one of: slot, signature, block_time"))
  else if !(["asc", "desc"].contains query.order) then
    .error (.badRequest [] (some "order must be one of: asc, desc"))
  else
    match query.slot_from, query.slot_to with
    | some f, some t =>
      if f > t then .error (.badRequest [] (some "slot_from must be <= slot_to"))
      else .ok ()
    | _, _ => .ok ()

/-- The WHERE clauses that list_with_filters pushes for each set filter
field.  SQL equality and ANY() against a NULL column are not satisfied, so a
row with a NULL from/to/program_ids does not match a set filter on it. -/
def filter_clauses (filter : TransactionFilter) (row : SolanaTransaction) : Bool :=
  (match filter.signature with
   | some sig => row.signature == sig
   | none => true) &&
  (match filter.from_pubkey with
   | some f => row.from_pubkey == some f
   | none => true) &&
  (match filter.to_pubkey with
   | some t => row.to_pubkey == some t
   | none => true) &&
  (match filter.program_id with
   | some program_id =>
     match row.program_ids with
     | some program_ids => program_ids.contains program_id
     | none => false
   | none => true) &&
  (match filter.slot_from with
   | some slot_from => decide (slot_from ≤ row.slot)
   | none => true) &&
  (match filter.slot_to with
   | some slot_to => decide (row.slot ≤ slot_to)
   | none => true)

/-- ORDER BY slot DESC / ORDER BY slot ASC as a relation on rows. -/
def slot_order (order_by_slot_desc : Bool) (a b : SolanaTransaction) : Prop :=
  if order_by_slot_desc then b.slot ≤ a.slot else a.slot ≤ b.slot

instance (d : Bool) : DecidableRel (slot_order d) := fun a b => by
  unfold slot_order
  exact inferInstance

instance (d : Bool) : IsTotal SolanaTransaction (slot_order d) :=
  ⟨by intro a b; cases d <;> simp only [slot_order, Bool.false_eq_true,
      if_false, if_true] <;> exact Int.le_total _ _⟩

instance (d : Bool) : IsTrans SolanaTransaction (slot_order d) :=
  ⟨by intro a b c hab hbc; cases d <;>
      simp only [slot_order, Bool.false_eq_true, if_false, if_true] at * <;> omega⟩

/-- Embedding of TransactionRepository::list_with_filters: filter rows by
the pushed clauses, ORDER BY slot in the requested direction, then apply
LIMIT/OFFSET. -/
def list_with_filters (store : List SolanaTransaction) (filter : TransactionFilter)
    (pagination : Pagination) (order_by_slot_desc : Bool) : List SolanaTransaction :=
  let rows := store.filter (filter_clauses filter)
  let sorted := rows.insertionSort (slot_order order_by_slot_desc)
  (sorted.drop pagination.offset).take pagination.limit

/-- Embedding of TransactionRepository::list: when no filter field is set it
runs the simple unfiltered query (same ordering and pagination), otherwise it
delegates to list_with_filters. -/
def repo_list (store : List SolanaTransaction) (filter : TransactionFilter)
    (pagination : Pagination) (order_by_slot_desc : Bool) : List SolanaTransaction :=
  if filter.signature.isNone && filter.from_pubkey.isNone && filter.to_pubkey.isNone
      && filter.program_id.isNone && filter.slot_from.isNone && filter.slot_to.isNone then
    let sorted := store.insertionSort (slot_order order_by_slot_desc)
    (sorted.drop pagination.offset).take pagination.limit
  else
    list_with_filters store filter pagination order_by_slot_desc

/-- The repository filter built by list_transactions from the query. -/
def query_filter (query : ListQuery) : TransactionFilter :=
  { signature := query.signature, from_pubkey := query.from_pubkey,
    to_pubkey := query.to_pubkey, program_id := query.program_id,
    slot_from := query.slot_from, slot_to := query.slot_to }

/-- Embedding of the list_transactions handler: validate the query, require
the store, build the filter and pagination, map order to order_by_slot_desc,
and read.  The embedding takes the response-cache path as disabled and the
summary read as error-free; neither changes the item list returned. -/
def list_transactions (query : ListQuery) (postgres : Option (List SolanaTransaction)) :
    Except ApiError (List SolanaTransaction) := do
  validate_query query
  match postgres with
  | none => .error (.serviceUnavailable "Database not available")
  | some store =>
    pure (repo_list store (query_filter query)
      { limit := query.limit, offset := query.offset } (query.order == "desc"))

/-- Spec-side matches(r, F): every set filter field is satisfied by the row —
equality for signature/from/to, membership for program_id, inclusive slot
range. -/
def spec_matches (filter : TransactionFilter) (row : SolanaTransaction) : Bool :=
  (match filter.signature with
   | some sig => row.signature == sig
   | none => true) &&
  (match filter.from_pubkey with
   | some f => row.from_pubkey == some f
   | none => true) &&
  (match filter.to_pubkey with
   | some t => row.to_pubkey == some t
   | none => true) &&
  (match filter.program_id with
   | some program_id => (row.program_ids.getD []).contains program_id
   | none => true) &&
  (match filter.slot_from with
   | some slot_from => decide (slot_from ≤ row.slot)
   | none => true) &&
  (match filter.slot_to with
   | some slot_to => decide (row.slot ≤ slot_to)
   | none => true)

/-- Spec-side sort key comparison for the claimed (sort_by, order) ordering:
the value of the requested field decides the order (block_time compares the epoch
seconds, absent values as 0). -/
def spec_key_le (sort_by : String) (a b : SolanaTransaction) : Bool :=
  if sort_by = "signature" then a.signature ≤ b.signature
  else if sort_by = "block_time" then decide (a.block_time.getD 0 ≤ b.block_time.getD 0)
  else decide (a.slot ≤ b.slot)

/-- Spec-side ordering relation from the claim: sort by the requested field,
ascending or descending per order. -/
def spec_sort_le (sort_by order : String) (a b : SolanaTransaction) : Bool :=
  if order = "desc" then spec_key_le sort_by b a
  else spec_key_le sort_by a b

/-- The spec ordering as a relation, for sorting. -/
def spec_sort_rel (sort_by order : String) (a b : SolanaTransaction) : Prop :=
  spec_sort_le sort_by order a b = true

instance (sort_by order : String) : DecidableRel (spec_sort_rel sort_by order) :=
  fun a b => Bool.decEq (spec_sort_le sort_by order a b) true

/-- The item list that claim C1 asserts the endpoint returns: exactly the
matching rows, ordered by (sort_by, order), windowed by (limit, offset). -/
def spec_list_items (store : List SolanaTransaction) (query : ListQuery) :
    List SolanaTransaction :=
  (((store.filter (spec_matches (query_filter query))).insertionSort
      (spec_sort_rel query.sort_by query.order)).drop query.offset).take query.limit

/-! ## Wallet-auth gate (api/src/http/middleware/wallet_auth.rs) -/

/-- Auth configuration surface used by the gate (api/src/config).  The Rust
field redis_key_prefix is named redis_key_pfx here. -/
structure AuthConfig where
  enabled : Bool
  header_wallet_address : String
  header_wallet_signature : String
  header_wallet_nonce : String
  bypass_paths : List String
  protect_prefixes : List String
  accept_signature_b58 : Bool
  accept_signature_b64 : Bool
  canonicalize_method : String
  canonicalize_path : String
  redis_key_pfx : String

/-- The visible state of the key/value store: the bindings held by Redis. -/
def KvState := List (String × String)

/-- GET key. -/
def kv_get (kv : KvState) (key : String) : Option String :=
  ((kv : List (String × String)).find? (fun p => p.1 == key)).map (fun p => p.2)

/-- DEL key. -/
def kv_del (kv : KvState) (key : String) : KvState :=
  (kv : List (String × String)).filter (fun p => p.1 != key)

/-- An incoming request as the gate sees it. -/
structure GateRequest where
  method : String
  path : String
  path_with_query : String
  headers : List (String × String)

/-- Header lookup by configured name. -/
def header_get (headers : List (String × String)) (name : String) : Option String :=
  (headers.find? (fun p => p.1 == name)).map (fun p => p.2)

/-- Oracles for the decoding and Ed25519 primitives of the auth crate; byte
strings are modelled as lists of byte values. -/
structure CryptoOracle where
  decode_pubkey_b58 : String → Except String (List Nat)
  decode_sig_b58 : String → Except String (List Nat)
  decode_sig_b64 : String → Except String (List Nat)
  verify_ed25519 : List Nat → String → List Nat → Except String Bool

/-- What the gate does with a request: forward it to the inner handler, or
answer it directly with a status, an error code, an optional reason and an
optional missing-headers list. -/
inductive GateOutcome where
  | forwarded
  | responded (status : Nat) (error : String) (reason : Option String)
      (missing : Option (List String))
deriving DecidableEq, Repr

/-- Exact-match bypass test. -/
def is_bypassed (cfg : AuthConfig) (path : String) : Bool :=
  cfg.bypass_paths.any (fun bp => path == bp)

/-- str::starts_with on the character sequences of the two strings. -/
def str_starts_with (s p : String) : Bool :=
  p.data.isPrefixOf s.data

/-- Protected-path test by path-prefix matching. -/
def is_protected (cfg : AuthConfig) (path : String) : Bool :=
  cfg.protect_prefixes.any (fun p => str_starts_with path p)

/-- Embedding of WalletAuthMiddleware::call.  Follows the source order:
disabled/bypassed/unprotected requests are forwarded untouched; then the
three headers are required (bad_request with the missing names); then Redis
must be available (internal/redis_unavailable); then the stored nonce is
fetched (unauthorized/nonce_missing when absent, nonce_mismatch on a
different value); the address and the signature are decoded; the Ed25519
verification runs over the signing string (internal/verification_error on
infrastructure error, unauthorized/invalid_signature when invalid); on
success the nonce binding is deleted and the request is forwarded.  The
embedded KV is pure data, so the GET-command failure branch (internal/
redis_error) of the source is never taken here. -/
def wallet_auth_call (cfg : AuthConfig) (oracle : CryptoOracle)
    (redis : Option KvState) (req : GateRequest) : GateOutcome × Option KvState :=
  if cfg.enabled = false then (.forwarded, redis)
  else if is_bypassed cfg req.path then (.forwarded, redis)
  else if is_protected cfg req.path = false then (.forwarded, redis)
  else
    let wallet_address := header_get req.headers cfg.header_wallet_address
    let wallet_signature := header_get req.headers cfg.header_wallet_signature
    let wallet_nonce := header_get req.headers cfg.header_wallet_nonce
    if wallet_address.isNone || wallet_signature.isNone || wallet_nonce.isNone then
      let missing :=
        (if wallet_address.isNone then [cfg.header_wallet_address] else []) ++
        (if wallet_signature.isNone then [cfg.header_wallet_signature] else []) ++
        (if wallet_nonce.isNone then [cfg.header_wallet_nonce] else [])
      (.responded 400 "bad_request" none (some missing), redis)
    else
      let address := wallet_address.getD ""
      let signature := wallet_signature.getD ""
      let nonce := wallet_nonce.getD ""
      match redis with
      | none => (.responded 500 "internal" (some "redis_unavailable") none, redis)
      | some kv =>
        let redis_key := cfg.redis_key_pfx ++ ":" ++ address
        match kv_get kv redis_key with
        | none => (.responded 401 "unauthorized" (some "nonce_missing") none, redis)
        | some stored_nonce =>
          if stored_nonce != nonce then
            (.responded 401 "unauthorized" (some "nonce_mismatch") none, redis)
          else
            match oracle.decode_pubkey_b58 address with
            | .error _ =>
              (.responded 400 "bad_request" (some "invalid_pubkey") none, redis)
            | .ok pubkey =>
              let sig_bytes :=
                if cfg.accept_signature_b58 then oracle.decode_sig_b58 signature
                else if cfg.accept_signature_b64 then oracle.decode_sig_b64 signature
                else .error "No signature format enabled"
              match sig_bytes with
              | .error _ =>
                (.responded 400 "bad_request" (some "invalid_signature_format") none, redis)
              | .ok sig =>
                let signing_string := build_signing_string req.method
                  req.path_with_query nonce cfg.canonicalize_method cfg.canonicalize_path
                match oracle.verify_ed25519 pubkey signing_string sig with
                | .error _ =>
                  (.responded 500 "internal" (some "verification_error") none, redis)
                | .ok false =>
                  (.responded 401 "unauthorized" (some "invalid_signature") none, redis)
                | .ok true =>
                  (.forwarded, some (kv_del kv redis_key))

/-! ## Fixed-window rate limiter (api/src/http/middleware/ratelimit.rs) -/

/-- One fixed-window counter entry for a (scope, key). -/
structure WindowEntry where
  count : Nat
  window_start : Nat
deriving DecidableEq, Repr

/-- Embedding of RateLimit::check_limit (the same logic is inlined for the
ip and user scopes in RateLimitMiddleware::call).  Time is in seconds on a
monotonic clock, so now is never before window_start; the saturating
subtraction of the Rust code is Nat subtraction here.  Returns the updated
entry and, when denied, the retry_after value. -/
def check_limit (entry : WindowEntry) (now : Nat) (max_requests window : Nat) :
    WindowEntry × Option Nat :=
  let entry := if window ≤ now - entry.window_start then
    { count := 0, window_start := now } else entry
  if max_requests ≤ entry.count then
    (entry, some (window - (now - entry.window_start)))
  else
    ({ count := entry.count + 1, window_start := entry.window_start }, none)

/-- The denial response built by the middleware: HTTP 429, error
rate_limited, and a Retry-After header carrying retry_after. -/
structure RateLimitResponse where
  status : Nat
  error : String
  retry_after_header : Nat
deriving DecidableEq, Repr

/-- Response constructed on exceed (HttpResponse::TooManyRequests with a
Retry-After header and a rate_limited json body). -/
def rate_limited_response (retry_after : Nat) : RateLimitResponse :=
  { status := 429, error := "rate_limited", retry_after_header := retry_after }

/-- A sequence of requests against one (scope, key) counter: each request at
its timestamp runs check_limit and threads the entry. -/
def run_window (entry : WindowEntry) (max_requests window : Nat) :
    List Nat → WindowEntry × List (Option Nat)
  | [] => (entry, [])
  | t :: ts =>
    let step := check_limit entry t max_requests window
    let rest := run_window step.1 max_requests window ts
    (rest.1, step.2 :: rest.2)

/-! ## Concrete fixtures for counterexamples and witnesses -/

/-- A stored row whose slot order and block_time order disagree. -/
def c1_tx_a : SolanaTransaction :=
  { signature := "A", slot := 1, from_pubkey := none, to_pubkey := none,
    lamports := none, program_ids := none, instructions := Json.null,
    block_time := some 50, created_at := 0 }

/-- Companion row for the C1 counterexample. -/
def c1_tx_b : SolanaTransaction :=
  { signature := "B", slot := 2, from_pubkey := none, to_pubkey := none,
    lamports := none, program_ids := none, instructions := Json.null,
    block_time := some 10, created_at := 0 }

/-- A valid query requesting sort_by=block_time, order=asc. -/
def c1_query : ListQuery :=
  { signature := none, from_pubkey := none, to_pubkey := none,
    program_id := none, slot_from := none, slot_to := none,
    sort_by := "block_time", order := "asc", limit := 50, offset := 0 }

/-- Base valid query (all defaults) for the C7 boundary cases. -/
def c7_base : ListQuery :=
  { signature := none, from_pubkey := none, to_pubkey := none,
    program_id := none, slot_from := none, slot_to := none,
    sort_by := "slot", order := "desc", limit := 50, offset := 0 }

/-- Auth configuration fixture for gate witnesses. -/
def auth_cfg_w : AuthConfig :=
  { enabled := true, header_wallet_address := "x-wallet-address",
    header_wallet_signature := "x-wallet-signature",
    header_wallet_nonce := "x-nonce", bypass_paths := ["/healthz"],
    protect_prefixes := ["/api"], accept_signature_b58 := true,
    accept_signature_b64 := false, canonicalize_method := "upper",
    canonicalize_path := "as-is", redis_key_pfx := "auth:nonce" }

/-- Crypto oracle fixture: decoding succeeds and the signature verifies. -/
def crypto_oracle_w : CryptoOracle :=
  { decode_pubkey_b58 := fun _ => .ok [1],
    decode_sig_b58 := fun _ => .ok [2],
    decode_sig_b64 := fun _ => .error "disabled",
    verify_ed25519 := fun _ _ _ => .ok true }

/-- KV fixture holding one issued nonce binding. -/
def kv_w : KvState := [("auth:nonce:WALLET1", "N1")]

/-- A protected request presenting the issued nonce. -/
def gate_req_w : GateRequest :=
  { method := "GET", path := "/api/transactions",
    path_with_query := "/api/transactions?limit=1",
    headers := [("x-wallet-address", "WALLET1"),
                ("x-wallet-signature", "SIG1"), ("x-nonce", "N1")] }

/-- A raw record that passes every check: 88-character signature, valid
slot, and a block_time string (whose parse outcome comes from the oracle). -/
def c5_raw_ok : RawTransaction :=
  { signature := "a2Vq8tTxu6Fg1hR3bN5mC7dE9kL0pQ4sW6yZ8aB1cD3eF5gH7jK9mN1pR3tV5xZ7bD9fH1kM3pR5tW7yB9dF1h",
    slot := 3, from_pubkey := none, to_pubkey := none, lamports := some 2,
    program_ids := some ["p"], instructions := some [],
    block_time := some "not-a-timestamp" }

/-- The payload carrying c5_raw_ok. -/
def c5_payload_ok : Payload := { size := 100, parsed := some c5_raw_ok }

/-- The normalized record the pipeline produces from c5_raw_ok under an
oracle that fails to parse the block_time string. -/
def c5_norm_ok : NormalizedTransaction :=
  { signature := c5_raw_ok.signature, slot := 3, from_pubkey := none,
    to_pubkey := none, lamports := some 2, program_ids := some ["p"],
    instructions := Json.arr [], block_time := none }

/-- A normalized transaction fixture for batch witnesses. -/
def batch_tx_w : NormalizedTransaction :=
  { signature := "sig-one", slot := 7, from_pubkey := none, to_pubkey := none,
    lamports := some 5, program_ids := some ["p1"],
    instructions := Json.arr [], block_time := none }

/-- A transaction value fixture for the filter-matching witness. -/
def ws_tx_w : Json :=
  Json.obj [("signature", Json.str "s1"), ("slot", Json.num 7),
            ("from_pubkey", Json.str "A"), ("to_pubkey", Json.str "B"),
            ("program_ids", Json.arr [Json.str "p1", Json.str "p2"])]

/-- A filter set fixture matching ws_tx_w. -/
def ws_filters_w : TransactionFilters :=
  { signature := none, from_f := some "A", to_f := none,
    program_id := some "p2", slot_from := some 5, slot_to := some 9 }

/-! ## Theorems -/

/-- Claim C9: build_signing_string is a pure function of
(method, path_with_query, nonce, canon rules) equal to
canon_method(method) ++ newline ++ canon_path(path_with_query) ++ newline ++
nonce, where the method option upper uppercases, lower lowercases and
anything else leaves the method as-is, and the path option lower lowercases
and anything else leaves the path as-is. -/
theorem c9_signing_string_canonical (method path_qs nonce canon_method canon_path : String) :
    build_signing_string method path_qs nonce canon_method canon_path =
      canon_method_spec canon_method method ++ "\n" ++
      canon_path_spec canon_path path_qs ++ "\n" ++ nonce
    ∧ canon_method_spec "upper" method = method.toUpper
    ∧ canon_method_spec "lower" method = method.toLower
    ∧ (canon_method ≠ "upper" → canon_method ≠ "lower" →
        canon_method_spec canon_method method = method)
    ∧ canon_path_spec "lower" path_qs = path_qs.toLower
    ∧ (canon_path ≠ "lower" → canon_path_spec canon_path path_qs = path_qs) := by
  refine ⟨rfl, rfl, ?_, ?_, rfl, ?_⟩
  · unfold canon_method_spec
    rw [if_neg (by decide), if_pos rfl]
  · intro h1 h2
    unfold canon_method_spec
    rw [if_neg h1, if_neg h2]
  · intro h
    unfold canon_path_spec
    rw [if_neg h]

/-- Witness for C9 at concrete canon rules not in the special sets. -/
theorem c9_signing_string_canonical_witness :
    canon_method_spec "keep" "get" = "get" ∧ canon_path_spec "keep" "/Api" = "/Api" :=
  ⟨(c9_signing_string_canonical "get" "/Api" "n0" "keep" "keep").2.2.2.1
      (by decide) (by decide),
   (c9_signing_string_canonical "get" "/Api" "n0" "keep" "keep").2.2.2.2.2
      (by decide)⟩

/-- Claim C10: for a protected, non-bypassed request carrying all three auth
headers, when the application state holds no Redis connection the gate
answers 500 with error internal and reason redis_unavailable; the outcome is
a direct response, so the inner handler is never invoked. -/
theorem c10_gate_no_redis (cfg : AuthConfig) (oracle : CryptoOracle) (req : GateRequest)
    (hen : cfg.enabled = true)
    (hbyp : is_bypassed cfg req.path = false)
    (hprot : is_protected cfg req.path = true)
    (ha : (header_get req.headers cfg.header_wallet_address).isSome = true)
    (hs : (header_get req.headers cfg.header_wallet_signature).isSome = true)
    (hn : (header_get req.headers cfg.header_wallet_nonce).isSome = true) :
    wallet_auth_call cfg oracle none req =
      (.responded 500 "internal" (some "redis_unavailable") none, none) := by
  obtain ⟨a, ha'⟩ := Option.isSome_iff_exists.mp ha
  obtain ⟨s, hs'⟩ := Option.isSome_iff_exists.mp hs
  obtain ⟨n, hn'⟩ := Option.isSome_iff_exists.mp hn
  unfold wallet_auth_call
  simp [hen, hbyp, hprot, ha', hs', hn']

/-- Witness for C10 on the concrete fixture request. -/
theorem c10_gate_no_redis_witness :
    wallet_auth_call auth_cfg_w crypto_oracle_w none gate_req_w =
      (.responded 500 "internal" (some "redis_unavailable") none, none) :=
  c10_gate_no_redis auth_cfg_w crypto_oracle_w gate_req_w rfl rfl (by decide)
    (by decide) (by decide) (by decide)

/-- Claim C4: for a transaction value carrying an integer slot, the matcher
delivers iff every set filter field is satisfied: signature, from and to by
exact string equality on the corresponding fields, program_id by membership
in the program_ids array, and slot_from/slot_to as an inclusive range on the
slot. -/
theorem c4_filter_matching (tx : Json) (filters : TransactionFilters) (slot : Int)
    (hslot : ws_get_i64 tx "slot" = some slot) :
    matches_filters tx filters = true ↔
      ((∀ s, filters.signature = some s → ws_get_str tx "signature" = some s) ∧
       (∀ s, filters.from_f = some s → ws_get_str tx "from_pubkey" = some s) ∧
       (∀ s, filters.to_f = some s → ws_get_str tx "to_pubkey" = some s) ∧
       (∀ p, filters.program_id = some p → p ∈ tx_program_ids tx) ∧
       (∀ a, filters.slot_from = some a → a ≤ slot) ∧
       (∀ b, filters.slot_to = some b → slot ≤ b)) := by
  unfold matches_filters
  rw [hslot]
  simp only [Bool.and_eq_true, and_assoc]
  refine and_congr ?_ (and_congr ?_ (and_congr ?_ (and_congr ?_ (and_congr ?_ ?_))))
  · cases filters.signature <;> simp
  · cases filters.from_f <;> simp
  · cases filters.to_f <;> simp
  · cases filters.program_id with
    | none => simp
    | some pid =>
      simp only [Option.some.injEq, forall_eq']
      cases harr : (tx.get? "program_ids").bind Json.asArr? with
      | none => simp [tx_program_ids, harr]
      | some arr =>
        simp [tx_program_ids, harr, List.any_eq_true, List.mem_filterMap]
  · cases filters.slot_from <;> simp [Int.not_lt]
  · cases filters.slot_to <;> simp [Int.not_lt]

/-- Permitted requests inside one window: starting from count c, a run of
requests that stays within the window and below the limit is entirely
permitted and counts up one by one. -/
theorem run_window_all_permitted (w L t0 : Nat) :
    ∀ (ts : List Nat) (c : Nat), (∀ t ∈ ts, t0 ≤ t ∧ t - t0 < w) →
    c + ts.length ≤ L →
    run_window { count := c, window_start := t0 } L w ts =
      ({ count := c + ts.length, window_start := t0 }, ts.map (fun _ => none)) := by
  intro ts
  induction ts with
  | nil => intro c _ _; simp [run_window]
  | cons t ts ih =>
    intro c hts hc
    obtain ⟨ht0, htw⟩ := hts t (by simp)
    have hlen : c + (ts.length + 1) ≤ L := by simpa using hc
    have hnr : ¬ (w ≤ t - t0) := by omega
    have hcl : ¬ (L ≤ c) := by omega
    have hstep : check_limit { count := c, window_start := t0 } t L w =
        ({ count := c + 1, window_start := t0 }, none) := by
      simp [check_limit, hnr, hcl]
    have hrest := ih (c + 1) (fun u hu => hts u (by simp [hu])) (by omega)
    simp only [run_window, hstep, hrest, List.map_cons, List.length_cons]
    have harith : c + 1 + ts.length = c + (ts.length + 1) := by omega
    rw [harith]

/-- Sequential insertion splits over list append. -/
theorem insert_rows_append (db : List NormalizedTransaction)
    (l1 l2 : List NormalizedTransaction) :
    insert_rows db (l1 ++ l2) =
      ((insert_rows (insert_rows db l1).1 l2).1,
       (insert_rows db l1).2 + (insert_rows (insert_rows db l1).1 l2).2) := by
  induction l1 generalizing db with
  | nil => simp [insert_rows]
  | cons x xs ih =>
    simp only [List.cons_append, insert_rows, List.append_eq]
    rw [ih]
    simp [Nat.add_assoc]

/-- rows_affected never exceeds the number of submitted rows. -/
theorem insert_rows_le (db : List NormalizedTransaction)
    (l : List NormalizedTransaction) : (insert_rows db l).2 ≤ l.length := by
  induction l generalizing db with
  | nil => simp [insert_rows]
  | cons x xs ih =>
    simp only [insert_rows, List.length_cons]
    have h2 := ih (insert_row db x).1
    have h1 : (insert_row db x).2 ≤ 1 := by
      unfold insert_row
      split_ifs <;> simp
    omega

/-- Chunked accumulation equals one sequential pass: total inserted is the
rows_affected of inserting the whole batch, total skipped is the batch size
minus it, and the final table state agrees. -/
theorem bulk_chunks_spec (n : Nat) (hn : 0 < n) :
    ∀ (fuel : Nat) (l : List NormalizedTransaction), l.length ≤ fuel →
    ∀ db, bulk_chunks db (chunks_of n l) =
      ((insert_rows db l).2, l.length - (insert_rows db l).2,
       (insert_rows db l).1) := by
  intro fuel
  induction fuel with
  | zero =>
    intro l hl db
    have hnil : l = [] := by cases l <;> simp_all
    subst hnil
    unfold chunks_of
    simp [bulk_chunks, insert_rows]
  | succ f ih =>
    intro l hl db
    cases l with
    | nil =>
      unfold chunks_of
      simp [bulk_chunks, insert_rows]
    | cons x xs =>
      rw [chunks_of]
      rw [if_neg (by simp; omega)]
      simp only [bulk_chunks]
      have hdrop : ((x :: xs).drop n).length ≤ f := by
        simp only [List.length_drop, List.length_cons]
        simp only [List.length_cons] at hl
        omega
      rw [ih ((x :: xs).drop n) hdrop]
      have hsplit := insert_rows_append db ((x :: xs).take n) ((x :: xs).drop n)
      rw [List.take_append_drop] at hsplit
      rw [hsplit]
      have h1 := insert_rows_le db ((x :: xs).take n)
      have h2 := insert_rows_le (insert_rows db ((x :: xs).take n)).1 ((x :: xs).drop n)
      have hlen : ((x :: xs).take n).length + ((x :: xs).drop n).length
          = (x :: xs).length := by
        rw [← List.length_append, List.take_append_drop]
      simp only [Prod.mk.injEq]
      refine ⟨trivial, ?_, trivial⟩
      omega

/-- Claim C2: after a successful bulk upsert of a non-empty batch, inserted
equals the total rows_affected of the store, skipped equals batch size minus it,
and with emit_ws_events enabled the pipeline emits exactly one fan-out event
for each of the first inserted entries of the batch in submission order and
none for the rest (and nothing reaches the DLQ). -/
theorem c2_commit_accounting (db batch : List NormalizedTransaction)
    (max_retries retry_backoff_ms : Nat) (now : Int)
    (hne : batch ≠ []) (hmr : 1 ≤ max_retries) :
    (bulk_insert_or_ignore db batch).1.inserted = (insert_rows db batch).2
    ∧ (bulk_insert_or_ignore db batch).1.skipped =
        batch.length - (insert_rows db batch).2
    ∧ (process_batch (fun _ => .ok (bulk_insert_or_ignore db batch).1)
        max_retries retry_backoff_ms true batch now).1.events =
      (batch.take (bulk_insert_or_ignore db batch).1.inserted).map
        normalized_tx_json
    ∧ (process_batch (fun _ => .ok (bulk_insert_or_ignore db batch).1)
        max_retries retry_backoff_ms true batch now).1.dlq = []
    ∧ (process_batch (fun _ => .ok (bulk_insert_or_ignore db batch).1)
        max_retries retry_backoff_ms true batch now).2 = [] := by
  have hbe : batch.isEmpty = false := by cases batch <;> simp_all
  have hb := bulk_chunks_spec 50 (by omega) batch.length batch (le_refl _) db
  have hbulk : bulk_insert_or_ignore db batch =
      ({ processed := batch.length, inserted := (insert_rows db batch).2,
         skipped := batch.length - (insert_rows db batch).2, errors := [] },
       (insert_rows db batch).1) := by
    unfold bulk_insert_or_ignore
    rw [if_neg (by simp [hbe]), hb]
  have hproc : process_batch (fun _ => .ok (bulk_insert_or_ignore db batch).1)
      max_retries retry_backoff_ms true batch now =
      ({ events := (batch.take (bulk_insert_or_ignore db batch).1.inserted).map
           normalized_tx_json,
         dlq := [], delays := [], attempts := 1,
         commit_result := some (bulk_insert_or_ignore db batch).1 }, []) := by
    unfold process_batch
    rw [if_neg (by simp [hbe])]
    unfold process_attempts
    rw [if_pos (by omega : (0 : Nat) < max_retries)]
    rfl
  refine ⟨by rw [hbulk], by rw [hbulk], by rw [hproc], by rw [hproc],
    by rw [hproc]⟩

/-- Witness for C2: a batch with a duplicated signature against an empty
store inserts one row, skips one, and emits one event. -/
theorem c2_commit_accounting_witness :
    (bulk_insert_or_ignore [] [batch_tx_w, batch_tx_w]).1.inserted =
      (insert_rows [] [batch_tx_w, batch_tx_w]).2
    ∧ (bulk_insert_or_ignore [] [batch_tx_w, batch_tx_w]).1.skipped =
        ([batch_tx_w, batch_tx_w] : List NormalizedTransaction).length -
          (insert_rows [] [batch_tx_w, batch_tx_w]).2
    ∧ (process_batch (fun _ => .ok (bulk_insert_or_ignore []
          [batch_tx_w, batch_tx_w]).1) 3 100 true [batch_tx_w, batch_tx_w] 0).1.events =
      (([batch_tx_w, batch_tx_w] : List NormalizedTransaction).take
          (bulk_insert_or_ignore [] [batch_tx_w, batch_tx_w]).1.inserted).map
        normalized_tx_json
    ∧ (process_batch (fun _ => .ok (bulk_insert_or_ignore []
          [batch_tx_w, batch_tx_w]).1) 3 100 true [batch_tx_w, batch_tx_w] 0).1.dlq = []
    ∧ (process_batch (fun _ => .ok (bulk_insert_or_ignore []
          [batch_tx_w, batch_tx_w]).1) 3 100 true [batch_tx_w, batch_tx_w] 0).2 = [] :=
  c2_commit_accounting [] [batch_tx_w, batch_tx_w] 3 100 0 (by simp) (by omega)

/-- The retry loop when every remaining attempt fails: it performs the
remaining attempts with a backoff × attempt delay after each non-final one,
then routes every batch record to the DLQ keyed by signature. -/
theorem process_attempts_all_fail (commit : Nat → Except String BatchResult)
    (e : String) (mr backoff : Nat) (emit : Bool)
    (batch : List NormalizedTransaction) (now : Int) :
    ∀ (fuel rc : Nat) (delays : List Nat), mr - rc ≤ fuel → rc < mr →
      (∀ k, rc + 1 ≤ k → k ≤ mr → commit k = .error e) →
      process_attempts commit mr backoff emit batch now rc delays =
        { events := [],
          dlq := batch.map (fun tx => (tx.signature,
            { original_message := normalized_tx_json tx, error := e,
              timestamp := now, retry_count := 0 })),
          delays := delays ++ (List.range (mr - 1 - rc)).map
            (fun i => backoff * (rc + 1 + i)),
          attempts := mr, commit_result := none } := by
  intro fuel
  induction fuel with
  | zero => intro rc delays hfu hrc hfail; omega
  | succ f ih =>
    intro rc delays hfu hrc hfail
    unfold process_attempts
    rw [if_pos hrc]
    rw [hfail (rc + 1) (by omega) (by omega)]
    dsimp only
    by_cases hlast : mr ≤ rc + 1
    · rw [if_pos hlast]
      have hmr : mr = rc + 1 := by omega
      subst hmr
      simp
    · rw [if_neg hlast]
      rw [ih (rc + 1) (delays ++ [backoff * (rc + 1)]) (by omega) (by omega)
          (fun k hk1 hk2 => hfail k (by omega) hk2)]
      have hdel : (delays ++ [backoff * (rc + 1)]) ++
          (List.range (mr - 1 - (rc + 1))).map (fun i => backoff * (rc + 1 + 1 + i)) =
          delays ++ (List.range (mr - 1 - rc)).map (fun i => backoff * (rc + 1 + i)) := by
        rw [List.append_assoc]
        congr 1
        have hk : mr - 1 - rc = (mr - 1 - (rc + 1)) + 1 := by omega
        rw [hk, List.range_succ_eq_map, List.map_cons, List.map_map,
          List.singleton_append]
        congr 1
        refine List.map_congr_left (fun i _ => ?_)
        simp only [Function.comp_apply]
        congr 1
        omega
      rw [hdel]

/-- Deleting a key removes its binding. -/
theorem kv_get_del (kv : KvState) (k : String) : kv_get (kv_del kv k) k = none := by
  unfold kv_get kv_del
  have h : List.find? (fun p => p.1 == k)
      (List.filter (fun p => p.1 != k) kv) = none := by
    rw [List.find?_eq_none]
    intro x hx
    have hmem := (List.mem_filter.mp hx).2
    simp only [bne_iff_ne, ne_eq] at hmem
    simp [hmem]
  rw [h]
  rfl

/-- Claim C3: a protected request that passes signature verification leaves
the KV store without a nonce binding for the wallet (the gate deletes it), so an
immediate second protected request from the same wallet presenting any nonce
is answered 401 unauthorized with reason nonce_missing and the store is left
unchanged. -/
theorem c3_one_time_nonce (cfg : AuthConfig) (oracle : CryptoOracle)
    (kv kv' : KvState) (req1 req2 : GateRequest) (addr sig2 nonce2 : String)
    (hen : cfg.enabled = true)
    (hbyp1 : is_bypassed cfg req1.path = false)
    (hprot1 : is_protected cfg req1.path = true)
    (haddr1 : header_get req1.headers cfg.header_wallet_address = some addr)
    (hfwd : wallet_auth_call cfg oracle (some kv) req1 = (.forwarded, some kv'))
    (hbyp2 : is_bypassed cfg req2.path = false)
    (hprot2 : is_protected cfg req2.path = true)
    (haddr2 : header_get req2.headers cfg.header_wallet_address = some addr)
    (hsig2 : header_get req2.headers cfg.header_wallet_signature = some sig2)
    (hnon2 : header_get req2.headers cfg.header_wallet_nonce = some nonce2) :
    kv_get kv' (cfg.redis_key_pfx ++ ":" ++ addr) = none
    ∧ wallet_auth_call cfg oracle (some kv') req2 =
        (.responded 401 "unauthorized" (some "nonce_missing") none, some kv') := by
  simp only [wallet_auth_call] at hfwd
  simp [hen, hbyp1, hprot1, haddr1] at hfwd
  cases hsig1 : header_get req1.headers cfg.header_wallet_signature with
  | none => simp [hsig1] at hfwd
  | some s1 =>
  cases hnon1 : header_get req1.headers cfg.header_wallet_nonce with
  | none => simp [hsig1, hnon1] at hfwd
  | some n1 =>
  simp [hsig1, hnon1] at hfwd
  cases hkv : kv_get kv (cfg.redis_key_pfx ++ ":" ++ addr) with
  | none => simp [hkv] at hfwd
  | some stored =>
  simp only [hkv] at hfwd
  by_cases hmm : stored = n1
  case neg => simp [hmm] at hfwd
  case pos =>
  simp [hmm] at hfwd
  cases hdp : oracle.decode_pubkey_b58 addr with
  | error err => simp [hdp] at hfwd
  | ok pk =>
  simp only [hdp] at hfwd
  cases hsb : (if cfg.accept_signature_b58 then oracle.decode_sig_b58 s1
      else if cfg.accept_signature_b64 then oracle.decode_sig_b64 s1
      else .error "No signature format enabled") with
  | error err => simp [hsb] at hfwd
  | ok sg =>
  simp only [hsb] at hfwd
  cases hv : oracle.verify_ed25519 pk (build_signing_string req1.method
      req1.path_with_query n1 cfg.canonicalize_method cfg.canonicalize_path) sg with
  | error err => simp [hv] at hfwd
  | ok b =>
  simp only [hv] at hfwd
  cases b with
  | false => simp at hfwd
  | true =>
  simp only [Prod.mk.injEq, Option.some.injEq] at hfwd
  obtain ⟨-, hkv'⟩ := hfwd
  have hgone : kv_get kv' (cfg.redis_key_pfx ++ ":" ++ addr) = none := by
    rw [← hkv']
    exact kv_get_del kv (cfg.redis_key_pfx ++ ":" ++ addr)
  refine ⟨hgone, ?_⟩
  simp only [wallet_auth_call]
  simp [hen, hbyp2, hprot2, haddr2, hsig2, hnon2]
  rw [hgone]

/-- Witness for C3 on the fixture configuration: the successful first call
consumes the binding, the immediate repeat gets nonce_missing. -/
theorem c3_one_time_nonce_witness :
    kv_get [] (auth_cfg_w.redis_key_pfx ++ ":" ++ "WALLET1") = none
    ∧ wallet_auth_call auth_cfg_w crypto_oracle_w (some []) gate_req_w =
        (.responded 401 "unauthorized" (some "nonce_missing") none, some []) :=
  c3_one_time_nonce auth_cfg_w crypto_oracle_w kv_w [] gate_req_w gate_req_w
    "WALLET1" "SIG1" "N1" rfl rfl (by decide) rfl rfl rfl (by decide) rfl rfl rfl

/-- Claim C6: when the bulk store commit of a non-empty batch fails at every
attempt, the loop makes max_retries attempts with a delay of
retry_backoff_ms × attempt after each non-final failed attempt; on
exhaustion every record of the batch is routed to the DLQ keyed by its
signature with payload original_message/error/timestamp/retry_count, no
fan-out events are emitted, and the call returns with the batch cleared so
the consumer loop continues. -/
theorem c6_retry_exhaustion (commit : Nat → Except String BatchResult)
    (e : String) (max_retries retry_backoff_ms : Nat) (emit_ws_events : Bool)
    (batch : List NormalizedTransaction) (now : Int)
    (hmr : 1 ≤ max_retries) (hne : batch ≠ [])
    (hfail : ∀ k, 1 ≤ k → k ≤ max_retries → commit k = .error e) :
    (process_batch commit max_retries retry_backoff_ms emit_ws_events
        batch now).1.attempts = max_retries
    ∧ (process_batch commit max_retries retry_backoff_ms emit_ws_events
        batch now).1.delays =
      (List.range (max_retries - 1)).map (fun i => retry_backoff_ms * (1 + i))
    ∧ (process_batch commit max_retries retry_backoff_ms emit_ws_events
        batch now).1.dlq =
      batch.map (fun tx => (tx.signature,
        { original_message := normalized_tx_json tx, error := e,
          timestamp := now, retry_count := 0 }))
    ∧ (process_batch commit max_retries retry_backoff_ms emit_ws_events
        batch now).1.commit_result = none
    ∧ (process_batch commit max_retries retry_backoff_ms emit_ws_events
        batch now).1.events = []
    ∧ (process_batch commit max_retries retry_backoff_ms emit_ws_events
        batch now).2 = [] := by
  have hbe : batch.isEmpty = false := by cases batch <;> simp_all
  have hpa := process_attempts_all_fail commit e max_retries retry_backoff_ms
    emit_ws_events batch now max_retries 0 [] (by omega) (by omega)
    (fun k hk1 hk2 => hfail k hk1 hk2)
  have hpb : process_batch commit max_retries retry_backoff_ms emit_ws_events
      batch now =
      ({ events := [],
         dlq := batch.map (fun tx => (tx.signature,
           { original_message := normalized_tx_json tx, error := e,
             timestamp := now, retry_count := 0 })),
         delays := [] ++ (List.range (max_retries - 1 - 0)).map
           (fun i => retry_backoff_ms * (0 + 1 + i)),
         attempts := max_retries, commit_result := none }, []) := by
    unfold process_batch
    rw [if_neg (by simp [hbe])]
    rw [hpa]
  rw [hpb]
  refine ⟨rfl, by simp, rfl, rfl, rfl, rfl⟩

/-- Witness for C6: two failing attempts on a one-record batch, one backoff
delay, the record dead-lettered under its signature. -/
theorem c6_retry_exhaustion_witness :
    (process_batch (fun _ => .error "db down") 2 100 false [batch_tx_w] 0).1.attempts = 2
    ∧ (process_batch (fun _ => .error "db down") 2 100 false [batch_tx_w] 0).1.delays =
      (List.range (2 - 1)).map (fun i => 100 * (1 + i))
    ∧ (process_batch (fun _ => .error "db down") 2 100 false [batch_tx_w] 0).1.dlq =
      ([batch_tx_w] : List NormalizedTransaction).map (fun tx => (tx.signature,
        { original_message := normalized_tx_json tx, error := "db down",
          timestamp := 0, retry_count := 0 }))
    ∧ (process_batch (fun _ => .error "db down") 2 100 false [batch_tx_w] 0).1.commit_result = none
    ∧ (process_batch (fun _ => .error "db down") 2 100 false [batch_tx_w] 0).1.events = []
    ∧ (process_batch (fun _ => .error "db down") 2 100 false [batch_tx_w] 0).2 = [] :=
  c6_retry_exhaustion (fun _ => .error "db down") "db down" 2 100 false
    [batch_tx_w] 0 (by omega) (by simp) (fun _ _ _ => rfl)

/-- Claim C8: for one rate-limit counter within one window, each permitted
request increments the count by exactly one (so counts never decrease), the
first limit requests of a fresh window are all permitted, the request
arriving when count = limit is denied with a 429 rate_limited response whose
Retry-After equals window − elapsed, and the counter resets once the window
has elapsed. -/
theorem c8_rate_limit_window (t0 w L : Nat) (ts : List Nat)
    (hw : 1 ≤ w) (hL : 1 ≤ L)
    (hts : ∀ t ∈ ts, t0 ≤ t ∧ t - t0 < w) (hlen : ts.length ≤ L) :
    (run_window { count := 0, window_start := t0 } L w ts).2 =
        ts.map (fun _ => none)
    ∧ (run_window { count := 0, window_start := t0 } L w ts).1 =
        { count := ts.length, window_start := t0 }
    ∧ (∀ e : WindowEntry, ∀ now, now - e.window_start < w → e.count < L →
        check_limit e now L w =
          ({ count := e.count + 1, window_start := e.window_start }, none))
    ∧ (∀ e : WindowEntry, ∀ now, now - e.window_start < w →
        e.count ≤ (check_limit e now L w).1.count)
    ∧ (∀ e : WindowEntry, ∀ now, now - e.window_start < w → e.count = L →
        check_limit e now L w = (e, some (w - (now - e.window_start)))
        ∧ rate_limited_response (w - (now - e.window_start)) =
            { status := 429, error := "rate_limited",
              retry_after_header := w - (now - e.window_start) })
    ∧ (∀ e : WindowEntry, ∀ now, w ≤ now - e.window_start →
        check_limit e now L w = ({ count := 1, window_start := now }, none)) := by
  have hrun := run_window_all_permitted w L t0 ts 0 hts (by omega)
  refine ⟨by rw [hrun], by rw [hrun]; simp, ?_, ?_, ?_, ?_⟩
  · intro e now hwin hcnt
    have hnr : ¬ (w ≤ now - e.window_start) := by omega
    have hcl : ¬ (L ≤ e.count) := by omega
    simp [check_limit, hnr, hcl]
  · intro e now hwin
    have hnr : ¬ (w ≤ now - e.window_start) := by omega
    by_cases hcl : L ≤ e.count
    · simp [check_limit, hnr, hcl]
    · simp [check_limit, hnr, hcl]
  · intro e now hwin hcnt
    have hnr : ¬ (w ≤ now - e.window_start) := by omega
    have hcl : L ≤ e.count := by omega
    exact ⟨by simp [check_limit, hnr, hcl], rfl⟩
  · intro e now hwin
    have hcl : ¬ (L ≤ 0) := by omega
    simp [check_limit, hwin, hcl]

/-- Counterexample to claim C5 as stated: a payload whose record has the
non-empty signature abc passes every rejection condition the claim lists,
yet the pipeline rejects it (validate_normalized requires signature length
in 80..=100, which the claim omits, as it omits the lamports check). -/
theorem c5_normalization_counterexample :
    c5_claim_rejects c5_payload = false
    ∧ except_is_ok (process_message (fun _ => none) c5_payload) = false := by
  exact ⟨rfl, rfl⟩

/-- Success of normalize_transaction as a boolean function of the
validation conditions on the raw record. -/
theorem normalize_ok_iff (o : String → Option Int) (raw : RawTransaction) :
    except_is_ok (normalize_transaction o raw) = !(c5_norm_rejects raw) := by
  unfold normalize_transaction except_is_ok c5_norm_rejects
  split_ifs with h1 h2 h3 h4 <;> simp_all

/-- Success of validate_normalized as a boolean function of the validation
conditions on the normalized record. -/
theorem validate_ok_iff (tx : NormalizedTransaction) :
    except_is_ok (validate_normalized tx) =
      !(c5_len_rejects tx.signature tx.from_pubkey tx.to_pubkey tx.lamports) := by
  unfold validate_normalized except_is_ok c5_len_rejects
  split_ifs with h1 h2 h3 h4
  · simp only [Bool.or_eq_true, decide_eq_true_eq] at h1
    rcases h1 with h | h <;> simp_all
  · simp_all
  · simp_all
  · simp_all
  · simp_all

/-- Field equations of a successful normalization: fields are copied,
block_time goes through the parse oracle (dropped to none on failure), and
missing instructions become an empty array. -/
theorem normalize_ok_val (o : String → Option Int) (raw : RawTransaction)
    (n : NormalizedTransaction) (hn : normalize_transaction o raw = .ok n) :
    n.signature = raw.signature ∧ n.slot = raw.slot ∧
    n.from_pubkey = raw.from_pubkey ∧ n.to_pubkey = raw.to_pubkey ∧
    n.lamports = raw.lamports ∧ n.program_ids = raw.program_ids ∧
    n.block_time = (match raw.block_time with
                    | some s => o s
                    | none => none) ∧
    n.instructions = Json.arr (raw.instructions.getD []) := by
  unfold normalize_transaction at hn
  split_ifs at hn
  simp only [Except.ok.injEq] at hn
  subst hn
  refine ⟨rfl, rfl, rfl, rfl, rfl, rfl, rfl, ?_⟩
  cases hi : raw.instructions <;> simp [hi]

/-- The processing chain once the payload is within bounds and parses. -/
theorem process_message_parsed (o : String → Option Int) (p : Payload)
    (raw : RawTransaction) (hsz : ¬ p.size > 1048576) (hp : p.parsed = some raw) :
    process_message o p =
      Except.bind (normalize_transaction o raw)
        (fun n => Except.bind (validate_normalized n) (fun _ => Except.ok n)) := by
  unfold process_message parse_raw_message
  rw [if_neg hsz, hp]
  rfl

/-- Claim C5 (amended): ingestion rejects a raw message iff the payload
exceeds 1 MiB (exactly 1 MiB is accepted), it fails structural parse, the
signature is empty or its length lies outside 80..=100, slot is negative,
program_ids exceeds 50 entries, instructions exceeds 100 entries, a present
from/to field is not 44 characters, or a present lamports is negative; an
unparseable block_time string is dropped without failing the record, and
missing instructions become an empty array. -/
theorem c5_normalization_amended (parse_rfc3339 : String → Option Int) (p : Payload) :
    (except_is_ok (process_message parse_rfc3339 p) = true ↔
      c5_amended_rejects p = false)
    ∧ (∀ raw tx, p.parsed = some raw →
        process_message parse_rfc3339 p = .ok tx →
        tx.block_time = (match raw.block_time with
                         | some s => parse_rfc3339 s
                         | none => none)
        ∧ tx.instructions = Json.arr (raw.instructions.getD [])) := by
  by_cases hsz : p.size > 1048576
  · have hpm : process_message parse_rfc3339 p =
        .error (.validationError "message_size" "Message too large (max 1MB)") := by
      unfold process_message parse_raw_message
      rw [if_pos hsz]
      rfl
    constructor
    · rw [hpm]
      unfold c5_amended_rejects
      simp [except_is_ok, hsz]
    · intro raw tx _ hok
      rw [hpm] at hok
      exact absurd hok (by simp)
  · cases hp : p.parsed with
    | none =>
      have hpm : process_message parse_rfc3339 p =
          .error (.parseError "unparsed payload" "json parse failure") := by
        unfold process_message parse_raw_message
        rw [if_neg hsz, hp]
        rfl
      constructor
      · rw [hpm]
        unfold c5_amended_rejects
        simp [except_is_ok, hsz, hp]
      · intro raw tx hraw _
        exact absurd hraw (by simp)
    | some raw =>
      have hpm := process_message_parsed parse_rfc3339 p raw hsz hp
      constructor
      · rw [hpm]
        unfold c5_amended_rejects
        rw [hp]
        rcases hn : normalize_transaction parse_rfc3339 raw with e | n
        · have hbad : c5_norm_rejects raw = true := by
            have h := normalize_ok_iff parse_rfc3339 raw
            rw [hn] at h
            simp only [except_is_ok] at h
            cases hb : c5_norm_rejects raw with
            | true => rfl
            | false => rw [hb] at h; exact absurd h (by decide)
          simp [except_is_ok, Except.bind, hsz, hbad]
        · obtain ⟨hsig, hslot, hfrom, hto, hlam, hprog, hbt, hinst⟩ :=
            normalize_ok_val parse_rfc3339 raw n hn
          have hnormok : c5_norm_rejects raw = false := by
            have h := normalize_ok_iff parse_rfc3339 raw
            rw [hn] at h
            simp only [except_is_ok] at h
            cases hb : c5_norm_rejects raw with
            | false => rfl
            | true => rw [hb] at h; exact absurd h (by decide)
          rcases hv : validate_normalized n with e | u
          · have hbad : c5_len_rejects raw.signature raw.from_pubkey
                raw.to_pubkey raw.lamports = true := by
              have h := validate_ok_iff n
              rw [hv, hsig, hfrom, hto, hlam] at h
              simp only [except_is_ok] at h
              cases hb : c5_len_rejects raw.signature raw.from_pubkey
                  raw.to_pubkey raw.lamports with
              | true => rfl
              | false => rw [hb] at h; exact absurd h (by decide)
            simp [except_is_ok, Except.bind, hn, hv, hsz, hnormok, hbad]
          · have hvalok : c5_len_rejects raw.signature raw.from_pubkey
                raw.to_pubkey raw.lamports = false := by
              have h := validate_ok_iff n
              rw [hv, hsig, hfrom, hto, hlam] at h
              simp only [except_is_ok] at h
              cases hb : c5_len_rejects raw.signature raw.from_pubkey
                  raw.to_pubkey raw.lamports with
              | false => rfl
              | true => rw [hb] at h; exact absurd h (by decide)
            simp [except_is_ok, Except.bind, hn, hv, hsz, hnormok, hvalok]
      · intro r tx hraw hok
        have hr : r = raw := by simpa using hraw.symm
        rw [hr]
        rw [hpm] at hok
        rcases hn : normalize_transaction parse_rfc3339 raw with e | n
        · rw [hn] at hok
          exact absurd hok (by simp [Except.bind])
        · rw [hn] at hok
          simp only [Except.bind] at hok
          rcases hv : validate_normalized n with e | u
          · rw [hv] at hok
            exact absurd hok (by simp [Except.bind])
          · rw [hv] at hok
            simp only [Except.bind, Except.ok.injEq] at hok
            subst hok
            obtain ⟨_, _, _, _, _, _, hbt, hinst⟩ :=
              normalize_ok_val parse_rfc3339 raw n hn
            exact ⟨hbt, hinst⟩

/-- Witness for the amended C5 on a record whose block_time string fails to
parse: the record is still accepted, the field is dropped, and the empty
instructions list is normalized. -/
theorem c5_normalization_amended_witness :
    c5_norm_ok.block_time = (match c5_raw_ok.block_time with
                             | some s => (fun _ => (none : Option Int)) s
                             | none => none)
    ∧ c5_norm_ok.instructions = Json.arr (c5_raw_ok.instructions.getD []) :=
  (c5_normalization_amended (fun _ => none) c5_payload_ok).2 c5_raw_ok c5_norm_ok
    rfl rfl

/-- Witness for C8 with limit 2 and window 60 at request times 0 and 5. -/
theorem c8_rate_limit_window_witness :
    (run_window { count := 0, window_start := 0 } 2 60 [0, 5]).2 =
        [0, 5].map (fun _ => none)
    ∧ (run_window { count := 0, window_start := 0 } 2 60 [0, 5]).1 =
        { count := ([0, 5] : List Nat).length, window_start := 0 }
    ∧ (∀ e : WindowEntry, ∀ now, now - e.window_start < 60 → e.count < 2 →
        check_limit e now 2 60 =
          ({ count := e.count + 1, window_start := e.window_start }, none))
    ∧ (∀ e : WindowEntry, ∀ now, now - e.window_start < 60 →
        e.count ≤ (check_limit e now 2 60).1.count)
    ∧ (∀ e : WindowEntry, ∀ now, now - e.window_start < 60 → e.count = 2 →
        check_limit e now 2 60 = (e, some (60 - (now - e.window_start)))
        ∧ rate_limited_response (60 - (now - e.window_start)) =
            { status := 429, error := "rate_limited",
              retry_after_header := 60 - (now - e.window_start) })
    ∧ (∀ e : WindowEntry, ∀ now, 60 ≤ now - e.window_start →
        check_limit e now 2 60 = ({ count := 1, window_start := now }, none)) :=
  c8_rate_limit_window 0 60 2 [0, 5] (by decide) (by decide)
    (by decide) (by decide)

/-- Claim C7: the list-query validator accepts iff limit lies in 1..=200,
sort_by and order come from their enumerations, and slot_from/slot_to are
not both set with slot_from > slot_to; every rejected query is answered
bad_request (status 400) and the endpoint result is that error for any store
state, so no store read occurs; in particular limit 1 and 200 pass, limit 0
and 201 fail, and slot_from > slot_to fails. -/
theorem c7_query_validation (query : ListQuery) :
    (validate_query query = .ok () ↔
      (1 ≤ query.limit ∧ query.limit ≤ 200 ∧
       query.sort_by ∈ (["slot", "signature", "block_time"] : List String) ∧
       query.order ∈ (["asc", "desc"] : List String) ∧
       ∀ a b, query.slot_from = some a → query.slot_to = some b → a ≤ b))
    ∧ (∀ e, validate_query query = .error e →
        e.status = 400 ∧ ∀ db : Option (List SolanaTransaction),
          list_transactions query db = .error e)
    ∧ validate_query { c7_base with limit := 1 } = .ok ()
    ∧ validate_query { c7_base with limit := 200 } = .ok ()
    ∧ validate_query { c7_base with limit := 0 } =
        .error (.badRequest [] (some "limit must be between 1 and 200"))
    ∧ validate_query { c7_base with limit := 201 } =
        .error (.badRequest [] (some "limit must be between 1 and 200"))
    ∧ validate_query { c7_base with slot_from := some 5, slot_to := some 3 } =
        .error (.badRequest [] (some "slot_from must be <= slot_to")) := by
  refine ⟨?_, ?_, rfl, rfl, rfl, rfl, rfl⟩
  · unfold validate_query
    cases hsf : query.slot_from <;> cases hst : query.slot_to <;>
      split_ifs with h1 h2 h3 <;> simp_all
    all_goals try (intro ha hb hc; exfalso; omega)
    all_goals try exact ⟨by omega, by tauto, by tauto⟩
    all_goals exact ⟨fun h => ⟨by omega, by tauto, by tauto, h⟩, fun h => h.2.2.2⟩
  · intro e he
    have hstat : e.status = 400 := by
      unfold validate_query at he
      split_ifs at he with h1 h2 h3
      · cases he; rfl
      · cases he; rfl
      · cases he; rfl
      · split at he
        · split_ifs at he
          cases he; rfl
        · cases he
    refine ⟨hstat, fun db => ?_⟩
    unfold list_transactions
    rw [he]
    rfl

/-- Witness for C7: the rejected limit 0 query is answered bad_request and
the endpoint result does not depend on the store. -/
theorem c7_query_validation_witness :
    (ApiError.badRequest [] (some "limit must be between 1 and 200")).status = 400
    ∧ ∀ db : Option (List SolanaTransaction),
        list_transactions { c7_base with limit := 0 } db =
          .error (.badRequest [] (some "limit must be between 1 and 200")) :=
  (c7_query_validation { c7_base with limit := 0 }).2.1
    (.badRequest [] (some "limit must be between 1 and 200")) rfl

/-- The SQL clause conjunction agrees with the matches predicate of the spec. -/
theorem filter_clauses_eq_spec (f : TransactionFilter) (r : SolanaTransaction) :
    filter_clauses f r = spec_matches f r := by
  unfold filter_clauses spec_matches
  cases hp : f.program_id with
  | none => rfl
  | some pid =>
    cases hr : r.program_ids with
    | none => rfl
    | some ps => rfl

/-- Both repository paths compute the windowed slot-ordered filtered rows. -/
theorem repo_list_eq (store : List SolanaTransaction) (f : TransactionFilter)
    (pag : Pagination) (d : Bool) :
    repo_list store f pag d =
      (((store.filter (spec_matches f)).insertionSort (slot_order d)).drop
        pag.offset).take pag.limit := by
  unfold repo_list list_with_filters
  split_ifs with h
  · have hfil : store.filter (spec_matches f) = store := by
      apply List.filter_eq_self.mpr
      intro r _
      simp only [Bool.and_eq_true, Option.isNone_iff_eq_none] at h
      unfold spec_matches
      rw [h.1.1.1.1.1, h.1.1.1.1.2, h.1.1.1.2, h.1.1.2, h.1.2, h.2]
      rfl
    rw [hfil]
  · rw [List.filter_congr (fun r _ => filter_clauses_eq_spec f r)]

/-- Counterexample to claim C1 as stated: with sort_by=block_time, order=asc
over two rows whose slot order and block_time order disagree, the endpoint
returns the rows in slot order, not the claimed block_time order (the
repository always orders by slot; sort_by is validated and echoed only). -/
theorem c1_list_counterexample :
    (list_transactions c1_query (some [c1_tx_a, c1_tx_b])).map
        (fun items => items.map (fun r => r.signature)) = .ok ["A", "B"]
    ∧ (spec_list_items [c1_tx_a, c1_tx_b] c1_query).map (fun r => r.signature) =
        ["B", "A"]
    ∧ (list_transactions c1_query (some [c1_tx_a, c1_tx_b])).map
        (fun items => items.map (fun r => r.signature)) ≠
      .ok ((spec_list_items [c1_tx_a, c1_tx_b] c1_query).map (fun r => r.signature)) := by
  refine ⟨rfl, rfl, ?_⟩
  intro hcontra
  rw [show (list_transactions c1_query (some [c1_tx_a, c1_tx_b])).map
      (fun items => items.map (fun r => r.signature)) =
      .ok ["A", "B"] from rfl] at hcontra
  rw [show (spec_list_items [c1_tx_a, c1_tx_b] c1_query).map
      (fun r => r.signature) = ["B", "A"] from rfl] at hcontra
  simp at hcontra

/-- Claim C1 (amended): for every accepted list query the endpoint returns
exactly the stored rows matching the filter, windowed by (limit, offset),
but always ordered by slot in the requested asc/desc direction — sort_by is
validated and echoed, yet never reaches the ordering. -/
theorem c1_list_corrected (query : ListQuery) (store items : List SolanaTransaction)
    (h : list_transactions query (some store) = .ok items) :
    items = (((store.filter (spec_matches (query_filter query))).insertionSort
        (slot_order (query.order == "desc"))).drop query.offset).take query.limit
    ∧ List.Sorted (slot_order (query.order == "desc")) items := by
  unfold list_transactions at h
  cases hv : validate_query query with
  | error e =>
    rw [hv] at h
    exact absurd h (by simp [Bind.bind, Except.bind])
  | ok u =>
    cases u
    rw [hv] at h
    simp only [Bind.bind, Except.bind, pure, Except.pure, Except.ok.injEq] at h
    subst h
    have heq := repo_list_eq store (query_filter query)
      { limit := query.limit, offset := query.offset } (query.order == "desc")
    constructor
    · exact heq
    · rw [heq]
      have hs := List.sorted_insertionSort (slot_order (query.order == "desc"))
        (store.filter (spec_matches (query_filter query)))
      have hsub : List.Sublist
          ((((store.filter (spec_matches (query_filter query))).insertionSort
            (slot_order (query.order == "desc"))).drop query.offset).take query.limit)
          ((store.filter (spec_matches (query_filter query))).insertionSort
            (slot_order (query.order == "desc"))) :=
        List.Sublist.trans (List.take_sublist _ _) (List.drop_sublist _ _)
      exact List.Pairwise.sublist hsub hs

/-- Witness for the amended C1 on the two-row fixture store. -/
theorem c1_list_corrected_witness :
    ([c1_tx_a, c1_tx_b] : List SolanaTransaction) =
      ((((([c1_tx_a, c1_tx_b] : List SolanaTransaction).filter
          (spec_matches (query_filter c1_query))).insertionSort
          (slot_order (c1_query.order == "desc"))).drop c1_query.offset).take
        c1_query.limit)
    ∧ List.Sorted (slot_order (c1_query.order == "desc"))
        ([c1_tx_a, c1_tx_b] : List SolanaTransaction) :=
  c1_list_corrected c1_query [c1_tx_a, c1_tx_b] [c1_tx_a, c1_tx_b] rfl

/-- Witness for C4 on the fixture transaction and filters. -/
theorem c4_filter_matching_witness :
    matches_filters ws_tx_w ws_filters_w = true ↔
      ((∀ s, ws_filters_w.signature = some s → ws_get_str ws_tx_w "signature" = some s) ∧
       (∀ s, ws_filters_w.from_f = some s → ws_get_str ws_tx_w "from_pubkey" = some s) ∧
       (∀ s, ws_filters_w.to_f = some s → ws_get_str ws_tx_w "to_pubkey" = some s) ∧
       (∀ p, ws_filters_w.program_id = some p → p ∈ tx_program_ids ws_tx_w) ∧
       (∀ a, ws_filters_w.slot_from = some a → a ≤ (7 : Int)) ∧
       (∀ b, ws_filters_w.slot_to = some b → (7 : Int) ≤ b)) :=
  c4_filter_matching ws_tx_w ws_filters_w 7 rfl
